import Mathlib

/-!
Verification of the furigana annotation service (`src/app.py`).

Strings are modelled as lists of Unicode code points (`List Nat`), matching
Python's `ord`/`chr` view of a string.  The external morphological analyzer
(fugashi/MeCab) is modelled as an abstract tokenizer function producing the
ordered token sequence; the global `tagger` handle, which is `None` when
initialization failed, is modelled as an `Option` of such a function.
-/

/-- Code points of a Lean string literal, used to write concrete inputs and
outputs readably. -/
def codes (s : String) : List Nat :=
  s.data.map Char.toNat

/-- Per-character action of `katakana_to_hiragana` (src/app.py line 28):
a code point in the katakana block U+30A1..U+30F6 is shifted down by 0x60,
anything else passes through unchanged. -/
def kataToHiraChar (c : Nat) : Nat :=
  if 0x30A1 ≤ c ∧ c ≤ 0x30F6 then c - 0x60 else c

/-- `katakana_to_hiragana` (src/app.py lines 25-30).  The argument is
optional because the Python function evaluates `katakana_text or ""`,
turning an absent value into the empty string before iterating. -/
def katakana_to_hiragana (katakana_text : Option (List Nat)) : List Nat :=
  (katakana_text.getD []).map kataToHiraChar

/-- A token produced by the tokenizer adapter: the surface form and the
optional katakana reading (`word.feature.kana`, absent when the analyzer
has no reading). -/
structure Token where
  surface : List Nat
  kana : Option (List Nat)
deriving DecidableEq, Repr

/-- `kanji_pattern.search(surface)` (src/app.py line 38): does the surface
contain a code point in the CJK Unified Ideographs range U+4E00..U+9FAF? -/
def containsKanji (s : List Nat) : Bool :=
  s.any (fun c => 0x4E00 ≤ c && c ≤ 0x9FAF)

/-- The ruby markup emitted for an annotated token (src/app.py line 45). -/
def rubyWrap (surface reading : List Nat) : List Nat :=
  codes "<ruby><rb>" ++ surface ++ codes "</rb><rt>" ++ reading ++ codes "</rt></ruby>"

/-- The loop body of `generate_furigana_html` (src/app.py lines 40-47): the
contribution of one token to the output, ruby markup when the eligibility
condition of line 44 holds and the bare surface otherwise. -/
def tokenHtml (t : Token) : List Nat :=
  let reading := katakana_to_hiragana t.kana
  if containsKanji t.surface && !reading.isEmpty && t.surface != reading then
    rubyWrap t.surface reading
  else
    t.surface

/-- `generate_furigana_html` (src/app.py lines 33-48).  `tagger` is the
global MeCab handle, `none` when initialization failed; when available it
maps the input text to the ordered token sequence, over which the function
accumulates `parsed_html` exactly as the Python loop does. -/
def generate_furigana_html (tagger : Option (List Nat → List Token))
    (text : List Nat) : List Nat :=
  match tagger with
  | none => codes "MeCab tagger is not available."
  | some tok => (tok text).foldl (fun acc t => acc ++ tokenHtml t) []

/-- Modelled from the spec: the structured-list output mode present only in
the repository's other near-duplicate variant file, which is not under
`src/`.  One `AnnotatedSpan` per token: the surface text and the reading,
or no reading when the token is not annotated (spec section 3). -/
structure AnnotatedSpan where
  text : List Nat
  furigana : Option (List Nat)
deriving DecidableEq, Repr

/-- Modelled from the spec: the structured-mode contribution of one token,
applying the same eligibility condition as the markup mode (spec section
4.2 step 2, identical to src/app.py line 44). -/
def tokenSpan (t : Token) : AnnotatedSpan :=
  let reading := katakana_to_hiragana t.kana
  if containsKanji t.surface && !reading.isEmpty && t.surface != reading then
    { text := t.surface, furigana := some reading }
  else
    { text := t.surface, furigana := none }

/-- Modelled from the spec: the structured-list output mode, one span per
token in input order (spec sections 3 and 4.2); `none` signals tokenizer
unavailability. -/
def generate_furigana_structured (tagger : Option (List Nat → List Token))
    (text : List Nat) : Option (List AnnotatedSpan) :=
  match tagger with
  | none => none
  | some tok => some ((tok text).map tokenSpan)

/-- The markup rendering of one structured span: ruby markup when a reading
is present, the bare text otherwise. -/
def spanHtml (sp : AnnotatedSpan) : List Nat :=
  match sp.furigana with
  | some r => rubyWrap sp.text r
  | none => sp.text

/-- HTTP method of a request reaching the `/furigana` route. -/
inductive Method where
  | OPTIONS
  | POST
  | GET
deriving DecidableEq, Repr

/-- The request data the `/furigana` handler inspects (src/app.py lines
74-85): the method, the `?text=` query parameter, whether the body is JSON
and parses to a dict, the dict's `text` field, and the two form fields. -/
structure Request where
  method : Method
  queryText : Option (List Nat)
  isJson : Bool
  payloadIsDict : Bool
  jsonText : Option (List Nat)
  formText : Option (List Nat)
  formJapaneseText : Option (List Nat)
deriving DecidableEq, Repr

/-- Python's `x or y` on an optional string `x` with default `y`: an absent
or empty string falls through to the default. -/
def pyOrStr (a : Option (List Nat)) (b : List Nat) : List Nat :=
  match a with
  | none => b
  | some s => if s.isEmpty then b else s

/-- Text extraction of the `/furigana` handler (src/app.py lines 74-85):
GET reads the query string; POST reads the JSON `text` field when the body
is a JSON dict, then falls back to the `text` / `japanese_text` form
fields when that produced an empty string. -/
def requestText (req : Request) : List Nat :=
  match req.method with
  | Method.OPTIONS => []
  | Method.GET => pyOrStr req.queryText []
  | Method.POST =>
      let t := if req.isJson && req.payloadIsDict then pyOrStr req.jsonText [] else []
      if t.isEmpty then pyOrStr req.formText (pyOrStr req.formJapaneseText []) else t

/-- Outcome of the `/furigana` route: the empty 204 preflight response, a
JSON error body with its HTTP status, or a 200 JSON result body. -/
inductive HttpResult where
  | preflight
  | error (status : Nat) (message : String)
  | ok (body : List Nat)
deriving DecidableEq, Repr

/-- `furigana_api` (src/app.py lines 57-98): preflight for OPTIONS, then
400 when no text was supplied, 500 when the tagger handle is `none`, and
otherwise the annotated markup of the extracted text. -/
def furigana_api (tagger : Option (List Nat → List Token))
    (req : Request) : HttpResult :=
  match req.method with
  | Method.OPTIONS => HttpResult.preflight
  | _ =>
      let text := requestText req
      if text.isEmpty then HttpResult.error 400 "Missing \x27text\x27"
      else
        match tagger with
        | none => HttpResult.error 500 "MeCab tagger not available on server"
        | some tok => HttpResult.ok (generate_furigana_html (some tok) text)

-- Helper lemmas shared by several theorems.

/-- Accumulating with `foldl` and `++` from `acc` is `acc` followed by the
concatenation of the per-token pieces. -/
theorem foldl_append_eq_join (f : Token → List Nat) :
    ∀ (ts : List Token) (acc : List Nat),
      ts.foldl (fun a t => a ++ f t) acc = acc ++ (ts.map f).flatten := by
  intro ts
  induction ts with
  | nil => intro acc; simp
  | cons t ts ih =>
      intro acc
      simp [List.foldl_cons, ih (acc ++ f t), List.append_assoc]

/-- The ruby markup around a surface is never equal to the surface itself:
it is strictly longer. -/
theorem rubyWrap_ne_surface (s r : List Nat) : rubyWrap s r ≠ s := by
  intro h
  have hlen := congrArg List.length h
  have h10 : (codes "<ruby><rb>").length = 10 := rfl
  have h9 : (codes "</rb><rt>").length = 9 := rfl
  have h12 : (codes "</rt></ruby>").length = 12 := rfl
  simp only [rubyWrap, List.length_append, h10, h9, h12] at hlen
  omega

/-- The markup contribution of a token is the projection of its structured
span. -/
theorem tokenHtml_eq_spanHtml (t : Token) : tokenHtml t = spanHtml (tokenSpan t) := by
  unfold tokenHtml tokenSpan spanHtml
  by_cases h : (containsKanji t.surface &&
      !(katakana_to_hiragana t.kana).isEmpty &&
      t.surface != katakana_to_hiragana t.kana) = true
  · simp [h]
  · simp [h]

/-- The boolean eligibility condition of src/app.py line 44, stated as a
proposition: some surface code point lies in U+4E00..U+9FAF, the converted
reading is non-empty, and the surface differs from the converted reading. -/
theorem eligibility_cond_iff (t : Token) :
    (containsKanji t.surface && !(katakana_to_hiragana t.kana).isEmpty &&
        t.surface != katakana_to_hiragana t.kana) = true ↔
      ((∃ c ∈ t.surface, 0x4E00 ≤ c ∧ c ≤ 0x9FAF) ∧
        katakana_to_hiragana t.kana ≠ [] ∧
        t.surface ≠ katakana_to_hiragana t.kana) := by
  simp [containsKanji, List.any_eq_true, and_assoc]

/-- C1: a token is wrapped in ruby markup (its contribution differs from its
bare surface) if and only if its surface contains a code point in the CJK
Unified Ideographs range U+4E00..U+9FAF, the katakana-to-hiragana-converted
reading is non-empty, and that converted reading differs from the surface;
in particular a token with no CJK ideograph, or whose converted reading
equals its surface, is never annotated. -/
theorem annotates_iff_kanji_and_fresh_reading (t : Token) :
    tokenHtml t ≠ t.surface ↔
      ((∃ c ∈ t.surface, 0x4E00 ≤ c ∧ c ≤ 0x9FAF) ∧
        katakana_to_hiragana t.kana ≠ [] ∧
        t.surface ≠ katakana_to_hiragana t.kana) := by
  rw [← eligibility_cond_iff]
  by_cases h : (containsKanji t.surface && !(katakana_to_hiragana t.kana).isEmpty &&
      t.surface != katakana_to_hiragana t.kana) = true
  · simp only [h, iff_true]
    simpa [tokenHtml, h] using rubyWrap_ne_surface t.surface (katakana_to_hiragana t.kana)
  · simp only [h, iff_false, ne_eq, not_not]
    simp [tokenHtml, h]

/-- C2: a code point in U+30A1..U+30F6 is mapped to itself minus 0x60, any
other code point is passed through unchanged, and both the empty and the
absent input convert to the empty string. -/
theorem katakana_to_hiragana_charwise (c : Nat) :
    (0x30A1 ≤ c ∧ c ≤ 0x30F6 → katakana_to_hiragana (some [c]) = [c - 0x60]) ∧
    (¬(0x30A1 ≤ c ∧ c ≤ 0x30F6) → katakana_to_hiragana (some [c]) = [c]) ∧
    katakana_to_hiragana (some []) = [] ∧
    katakana_to_hiragana none = [] := by
  refine ⟨?_, ?_, rfl, rfl⟩
  · intro h
    simp [katakana_to_hiragana, kataToHiraChar, h]
  · intro h
    simp [katakana_to_hiragana, kataToHiraChar, h]

/-- Witness for C2 at the concrete code points U+30AB (katakana KA, mapped
to U+304B hiragana KA) and U+0041 (Latin A, unchanged). -/
theorem katakana_to_hiragana_charwise_witness :
    katakana_to_hiragana (some [0x30AB]) = [0x304B] ∧
    katakana_to_hiragana (some [0x41]) = [0x41] :=
  ⟨(katakana_to_hiragana_charwise 0x30AB).1 (by decide),
   (katakana_to_hiragana_charwise 0x41).2.1 (by decide)⟩

/-- C3: for the single-token sequence with surface 漢字 and katakana reading
カンジ, the markup-mode output is exactly
the string <ruby><rb>漢字</rb><rt>かんじ</rt></ruby>, the converted reading
being かんじ. -/
theorem end_to_end_kanji_example :
    generate_furigana_html
        (some (fun _ => [{ surface := codes "漢字", kana := some (codes "カンジ") }]))
        (codes "漢字")
      = codes "<ruby><rb>漢字</rb><rt>かんじ</rt></ruby>" ∧
    katakana_to_hiragana (some (codes "カンジ")) = codes "かんじ" := by
  exact ⟨by decide, by decide⟩

/-- C4: when the tagger is available, the markup output is the in-order
concatenation, over the token sequence, of each token's contribution — one
span per token, in input order, with no reordering or merging. -/
theorem html_is_ordered_concat (tok : List Nat → List Token) (text : List Nat) :
    generate_furigana_html (some tok) text = ((tok text).map tokenHtml).flatten := by
  simp [generate_furigana_html, foldl_append_eq_join]

/-- C5: the markup-string mode and the structured-list mode apply the same
eligibility logic: the markup output is the pure per-span projection of the
structured output, so any token sequence yields consistent decisions
regardless of mode. -/
theorem modes_apply_same_eligibility (tok : List Nat → List Token)
    (text : List Nat) (spans : List AnnotatedSpan)
    (h : generate_furigana_structured (some tok) text = some spans) :
    generate_furigana_html (some tok) text = (spans.map spanHtml).flatten := by
  have hspans : spans = (tok text).map tokenSpan := by
    simpa [generate_furigana_structured] using h.symm
  subst hspans
  rw [List.map_map]
  have hmap : (tok text).map (spanHtml ∘ tokenSpan) = (tok text).map tokenHtml := by
    apply List.map_congr_left
    intro t _
    exact (tokenHtml_eq_spanHtml t).symm
  rw [hmap]
  simp [generate_furigana_html, foldl_append_eq_join]

/-- Witness for C5 on the concrete single-token sequence of C3's example. -/
theorem modes_apply_same_eligibility_witness :
    generate_furigana_html
        (some (fun _ => [{ surface := codes "漢字", kana := some (codes "カンジ") }]))
        (codes "漢字")
      = ([{ text := codes "漢字", furigana := some (codes "かんじ") }].map spanHtml).flatten :=
  modes_apply_same_eligibility _ (codes "漢字") _ (by decide)

/-- C6: a non-preflight request that supplies no text is answered with HTTP
400 and a JSON error body; the result is the same for every tagger, so the
annotator is never consulted. -/
theorem missing_text_yields_400 (tagger : Option (List Nat → List Token))
    (req : Request) (hm : req.method ≠ Method.OPTIONS)
    (ht : (requestText req).isEmpty = true) :
    furigana_api tagger req = HttpResult.error 400 "Missing \x27text\x27" := by
  cases req with
  | mk m q ij pd jt ft fj =>
      cases m with
      | OPTIONS => exact absurd rfl hm
      | POST => simp [furigana_api, ht]
      | GET => simp [furigana_api, ht]

/-- Witness for C6: a POST whose JSON body is the empty object ({}: a dict
with no text field) and no form fields is answered 400, even with a
working tagger. -/
theorem missing_text_yields_400_witness :
    furigana_api (some (fun _ => []))
        { method := Method.POST, queryText := none, isJson := true,
          payloadIsDict := true, jsonText := none, formText := none,
          formJapaneseText := none }
      = HttpResult.error 400 "Missing \x27text\x27" :=
  missing_text_yields_400 _ _ (by decide) (by decide)

/-- C7: when the tagger failed to initialize, the annotator returns its
unavailability message instead of crashing, and the route surfaces the
condition as HTTP 500 with a JSON error body for every non-preflight
request carrying text — never as silently empty output. -/
theorem tagger_unavailable_yields_500 :
    (∀ text, generate_furigana_html none text = codes "MeCab tagger is not available.") ∧
    (∀ req : Request, req.method ≠ Method.OPTIONS →
      (requestText req).isEmpty = false →
      furigana_api none req = HttpResult.error 500 "MeCab tagger not available on server") := by
  constructor
  · intro text
    rfl
  · intro req hm ht
    cases req with
    | mk m q ij pd jt ft fj =>
        cases m with
        | OPTIONS => exact absurd rfl hm
        | POST => simp [furigana_api, ht]
        | GET => simp [furigana_api, ht]

/-- Witness for C7: a GET with text 漢字 while the tagger is unavailable is
answered 500. -/
theorem tagger_unavailable_yields_500_witness :
    furigana_api none
        { method := Method.GET, queryText := some (codes "漢字"), isJson := false,
          payloadIsDict := false, jsonText := none, formText := none,
          formJapaneseText := none }
      = HttpResult.error 500 "MeCab tagger not available on server" :=
  tagger_unavailable_yields_500.2 _ (by decide) (by decide)

/-- C8: the markup output is a deterministic pure function of the token
sequence alone: two calls whose tokenizations agree produce identical
output, with no state carried between calls. -/
theorem annotation_pure_in_token_sequence (tok₁ tok₂ : List Nat → List Token)
    (text₁ text₂ : List Nat) (h : tok₁ text₁ = tok₂ text₂) :
    generate_furigana_html (some tok₁) text₁ = generate_furigana_html (some tok₂) text₂ := by
  simp [generate_furigana_html, h]

/-- Witness for C8: two calls over the same token sequence (here produced
from different raw texts by constant tokenizers) give identical output. -/
theorem annotation_pure_in_token_sequence_witness :
    generate_furigana_html
        (some (fun _ => [{ surface := codes "漢字", kana := some (codes "カンジ") }]))
        (codes "漢字")
      = generate_furigana_html
          (some (fun _ => [{ surface := codes "漢字", kana := some (codes "カンジ") }]))
          (codes "abc") :=
  annotation_pure_in_token_sequence _ _ _ _ rfl

/-- C9: the katakana-to-hiragana conversion is idempotent: converting its
output again changes nothing, because no output code point lies in the
shifted range U+30A1..U+30F6. -/
theorem katakana_to_hiragana_idempotent (s : List Nat) :
    katakana_to_hiragana (some (katakana_to_hiragana (some s)))
      = katakana_to_hiragana (some s) := by
  simp only [katakana_to_hiragana, Option.getD_some, List.map_map]
  apply List.map_congr_left
  intro a _
  show kataToHiraChar (kataToHiraChar a) = kataToHiraChar a
  unfold kataToHiraChar
  split_ifs <;> omega

/-- C10: when the tagger is unavailable, the markup-mode annotation
function returns, for every input text, the literal string
MeCab tagger is not available. as an ordinary return value. -/
theorem unavailable_tagger_returns_plain_string (text : List Nat) :
    generate_furigana_html none text = codes "MeCab tagger is not available." := rfl
